import Mathlib

/-!
A shallow embedding of the key-provisioning logic of `src/config.js`
(the "RSA Key Setup" block, lines 88-130, plus the `JWT_EXPIRES_IN`
clamp, lines 55-59) of the login-server repository, together with
theorems settling the frozen claims about it.

Modelling conventions:
* The filesystem is a finite association list from path strings to
  entries; later entries shadow earlier ones.  An entry is `absent`,
  a readable `file` with byte content and a permission-mode string,
  or `unreadable` (present on disk, so `existsSync` sees it, but
  `readFileSync` throws a non-ENOENT error, e.g. EACCES/EISDIR).
* JavaScript exceptions are modelled by `JsError` carrying the
  `name`, `code`, `message` and `path` fields the catch block reads.
* The external `jsonwebtoken` round trip (`jwt.sign` + `jwt.verify`,
  line 93-94) and the `node-rsa` generator (line 110-112) are
  external libraries, not repository code; they enter the model as
  parameters: a `validate` oracle returning `none` on success or the
  thrown `JsError` on failure, and the generated key bytes
  `genPrivate`/`genPublic`.
* `process.env` values are `Option String`; JavaScript truthiness of
  an env string (`undefined` and `""` are falsy) is `truthyStr`.
  A `Buffer` returned by `readFileSync` is an object and hence is
  always truthy in JavaScript, even when the file was empty; the
  catch condition on line 97 therefore only tests whether the
  variable was assigned at all.
-/

namespace LoginServer

/-- Byte strings (contents of key files). -/
abbrev Bytes := List Nat

/-- One filesystem entry: absent, a readable file with content and a
permission-mode string, or a path that exists but whose read throws a
non-ENOENT error with the given `name`/`code`/`message` fields. -/
inductive Entry where
  | absent : Entry
  | file (content : Bytes) (mode : String) : Entry
  | unreadable (name : String) (code : Option String) (message : String) : Entry
deriving DecidableEq, Repr

/-- The filesystem: an association list from paths to entries; the
first matching key wins, so updates are modelled by consing. -/
abbrev FS := List (String × Entry)

/-- Look a path up in the filesystem (first match; missing key means
the path is absent). -/
def lookupFS : FS → String → Entry
  | [], _ => .absent
  | (q, e) :: rest, p => if p = q then e else lookupFS rest p

/-- Set the entry at a path (shadowing update). -/
def setFS (fs : FS) (p : String) (e : Entry) : FS := (p, e) :: fs

/-- `fs.existsSync(p)` (line 117): true for readable and unreadable
entries alike, false only for absent paths. -/
def exi (fs : FS) (p : String) : Bool :=
  match lookupFS fs p with
  | .absent => false
  | _ => true

/-- The error object a JavaScript exception carries, restricted to the
fields the catch block of `src/config.js` inspects (lines 98-105). -/
structure JsError where
  name : String
  code : Option String
  message : String
  path : Option String
deriving DecidableEq, Repr

/-- `fs.readFileSync(p)` (lines 90-91): content on success, an ENOENT
error (name `"Error"`, code `"ENOENT"`, `path` set) when the path is
absent, and the stored error fields when the path is unreadable. -/
def readFile (fs : FS) (p : String) : Except JsError Bytes :=
  match lookupFS fs p with
  | .absent => .error ⟨"Error", some "ENOENT", "no such file or directory", some p⟩
  | .file c _ => .ok c
  | .unreadable n c m => .error ⟨n, c, m, some p⟩

/-- `fs.writeFileSync(p, content)` (lines 126, 128): replaces the
content, keeping the mode of an existing file and using the default
mode for a fresh file. -/
def writeFS (fs : FS) (p : String) (content : Bytes) : FS :=
  match lookupFS fs p with
  | .file _ m => setFS fs p (.file content m)
  | _ => setFS fs p (.file content "666")

/-- The permission mode `writeFS` leaves at the target: the old mode
of an existing file, the default otherwise. -/
def modeAfter (e : Entry) : String :=
  match e with
  | .file _ m => m
  | _ => "666"

/-- `fs.chmodSync(p, mode)` (lines 127, 129): sets the mode of an
existing file.  In the source it is only ever called right after
`writeFileSync` on the same path, so the entry is always a file. -/
def chmodFS (fs : FS) (p : String) (mode : String) : FS :=
  match lookupFS fs p with
  | .file c _ => setFS fs p (.file c mode)
  | _ => fs

/-- `fs.renameSync(src, dst)` (line 122): the destination receives the
source entry and the source becomes absent. -/
def renameFS (fs : FS) (src dst : String) : FS :=
  setFS (setFS fs dst (lookupFS fs src)) src .absent

/-- The decimal digit characters of `n`, most significant first, with
explicit fuel so that the function is structurally recursive and
kernel-reducible.  `natToString` instantiates the fuel sufficiently. -/
def natDigitCharsAux : Nat → Nat → List Char
  | 0, _ => []
  | fuel + 1, n =>
    if n < 10 then [Nat.digitChar n]
    else natDigitCharsAux fuel (n / 10) ++ [Nat.digitChar (n % 10)]

/-- JavaScript number-to-string conversion for a nonnegative integer,
as used by the template literal on line 116: the usual decimal
rendering without leading zeros. -/
def natToString (n : Nat) : String := ⟨natDigitCharsAux (n + 1) n⟩

/-- Line 116: `filename + (index ? `.backup.INDEX` : "") + ".key"`. -/
def candName (base : String) (i : Nat) : String :=
  base ++ (if i = 0 then "" else ".backup." ++ natToString i) ++ ".key"

/-- The backup-index scan of lines 115-119: starting from `i`, return
the first index whose candidate file does not exist, with explicit
fuel.  `firstFree` supplies fuel that is always sufficient (there are
finitely many files, so a free candidate exists below `fs.length + 1`). -/
def firstFreeAux (fs : FS) (base : String) : Nat → Nat → Nat
  | 0, i => i
  | fuel + 1, i =>
    if exi fs (candName base i) then firstFreeAux fs base fuel (i + 1)
    else i

/-- The index computed by the `while (fs.existsSync(file(index)))` loop
of lines 115-119: the smallest `i` with `candName base i` free. -/
def firstFree (fs : FS) (base : String) : Nat :=
  firstFreeAux fs base (fs.length + 1) 0

/-- A filesystem mutation performed by the key-setup block, recorded
for frame conditions. -/
inductive FsOp where
  | rename (src dst : String) : FsOp
  | write (path : String) : FsOp
  | chmod (path mode : String) : FsOp
deriving DecidableEq, Repr

/-- One iteration of the backup loop of lines 114-124 for one base
filename: compute the first free index and, when it is positive,
rename the unsuffixed file to that backup slot. -/
def rotateOne (fs : FS) (base : String) : FS × List FsOp :=
  let i := firstFree fs base
  if 0 < i then
    (renameFS fs (candName base 0) (candName base i),
     [FsOp.rename (candName base 0) (candName base i)])
  else (fs, [])

/-- The fatal diagnostics distinguished by the catch block,
lines 100-106. -/
inductive Diag where
  | missingFile (path : Option String) : Diag
  | invalidKeyPair : Diag
  | unknown (name : String) (code : Option String) (message : String) : Diag
deriving DecidableEq, Repr

/-- The outcome of the RSA Key Setup block: keypair loaded from disk,
keypair freshly generated, or `process.exit(1)` with a diagnostic. -/
inductive Outcome where
  | loaded (priv pub : Bytes) : Outcome
  | regenerated (priv pub : Bytes) : Outcome
  | fatal (d : Diag) : Outcome
deriving DecidableEq, Repr

/-- Error classification of lines 100-106: ENOENT gives the
missing-file message naming `error.path`, `JsonWebTokenError` gives the
keypair-validation message, anything else the unknown-error message. -/
def classify (e : JsError) : Diag :=
  if e.name = "Error" ∧ e.code = some "ENOENT" then .missingFile e.path
  else if e.name = "JsonWebTokenError" then .invalidKeyPair
  else .unknown e.name e.code e.message

/-- The key-path environment variables consumed by the block
(lines 35-36; the `JTW_` spelling is the source's). -/
structure Env where
  jtwPrivateKeyPath : Option String
  jtwPublicKeyPath : Option String
deriving DecidableEq, Repr

/-- JavaScript truthiness of an optional env string: `undefined` and
`""` are falsy, every other string is truthy. -/
def truthyStr : Option String → Bool
  | none => false
  | some s => !(s = "")

/-- JavaScript `o || d` for an optional env string `o`. -/
def orDefault (o : Option String) (d : String) : String :=
  match o with
  | none => d
  | some s => if s = "" then d else s

/-- `privateKeyPath || "./private.key"` (line 90). -/
def effPrivPath (cfg : Env) : String := orDefault cfg.jtwPrivateKeyPath "./private.key"

/-- `publicKeyPath || "./public.key"` (line 91). -/
def effPubPath (cfg : Env) : String := orDefault cfg.jtwPublicKeyPath "./public.key"

/-- The regeneration arm of the catch block, lines 109-129: generate
(the generated bytes are the parameters), rotate backups for both
bases, then write and chmod both key files. -/
def regenerate (genPrivate genPublic : Bytes) (fs : FS) :
    Outcome × FS × List FsOp :=
  let r1 := rotateOne fs "./private"
  let r2 := rotateOne r1.1 "./public"
  let fs3 := writeFS r2.1 "./private.key" genPrivate
  let fs4 := chmodFS fs3 "./private.key" "600"
  let fs5 := writeFS fs4 "./public.key" genPublic
  let fs6 := chmodFS fs5 "./public.key" "644"
  (.regenerated genPrivate genPublic, fs6,
   r1.2 ++ r2.2 ++
     [FsOp.write "./private.key", FsOp.chmod "./private.key" "600",
      FsOp.write "./public.key", FsOp.chmod "./public.key" "644"])

/-- The catch block, lines 96-130.  `privAssigned`/`pubAssigned` record
whether the `privateKey`/`publicKey` variables were assigned before the
throw; an assigned `Buffer` is truthy in JavaScript regardless of its
length, so line 97's condition reduces to these flags plus the
truthiness of the two env paths. -/
def handleCatch (cfg : Env) (genPrivate genPublic : Bytes) (fs : FS)
    (e : JsError) (privAssigned pubAssigned : Bool) :
    Outcome × FS × List FsOp :=
  if truthyStr cfg.jtwPrivateKeyPath || truthyStr cfg.jtwPublicKeyPath
      || privAssigned || pubAssigned then
    (.fatal (classify e), fs, [])
  else regenerate genPrivate genPublic fs

/-- The RSA Key Setup block, lines 88-130: read the private key file,
read the public key file, run the sign/verify round trip; on success
use the loaded pair unchanged, on any throw run the catch block with
the assignment state reached so far. -/
def resolve (cfg : Env) (validate : Bytes → Bytes → Option JsError)
    (genPrivate genPublic : Bytes) (fs : FS) : Outcome × FS × List FsOp :=
  match readFile fs (effPrivPath cfg) with
  | .error e => handleCatch cfg genPrivate genPublic fs e false false
  | .ok priv =>
    match readFile fs (effPubPath cfg) with
    | .error e => handleCatch cfg genPrivate genPublic fs e true false
    | .ok pub =>
      match validate priv pub with
      | some e => handleCatch cfg genPrivate genPublic fs e true true
      | none => (.loaded priv pub, fs, [])

/-- The whitespace characters JavaScript's `parseInt` skips (the ASCII
ones; `process.env` values are ordinarily ASCII). -/
def jsWhitespace (c : Char) : Bool :=
  [' ', '\t', '\n', '\r', Char.ofNat 11, Char.ofNat 12].contains c

/-- The numeric value of a (possibly hexadecimal) digit character. -/
def hexDigitVal (c : Char) : Option Nat :=
  if '0' ≤ c ∧ c ≤ '9' then some (c.toNat - '0'.toNat)
  else if 'a' ≤ c ∧ c ≤ 'f' then some (c.toNat - 'a'.toNat + 10)
  else if 'A' ≤ c ∧ c ≤ 'F' then some (c.toNat - 'A'.toNat + 10)
  else none

/-- The value of a digit character, restricted to the given radix. -/
def digitValIn (radix : Nat) (c : Char) : Option Nat :=
  match hexDigitVal c with
  | some v => if v < radix then some v else none
  | none => none

/-- The maximal leading run of valid digits. -/
def leadingDigits (radix : Nat) : List Char → List Nat
  | [] => []
  | c :: rest =>
    match digitValIn radix c with
    | some v => v :: leadingDigits radix rest
    | none => []

/-- The numeric value of a digit list, most significant first. -/
def ofDigitsVal (radix : Nat) (ds : List Nat) : Nat :=
  ds.foldl (fun acc d => acc * radix + d) 0

/-- JavaScript `parseInt(s)` with the default radix handling: skip
leading whitespace, read an optional sign, honour a `0x`/`0X` prefix,
then take the maximal run of digits; `none` models `NaN`. -/
def jsParseInt (s : String) : Option Int :=
  let cs := s.data.dropWhile jsWhitespace
  let sc : Int × List Char :=
    match cs with
    | '-' :: r => (-1, r)
    | '+' :: r => (1, r)
    | _ => (1, cs)
  let rc : Nat × List Char :=
    match sc.2 with
    | '0' :: 'x' :: r => (16, r)
    | '0' :: 'X' :: r => (16, r)
    | _ => (10, sc.2)
  let ds := leadingDigits rc.1 rc.2
  if ds = [] then none else some (sc.1 * (ofDigitsVal rc.1 ds : Nat))

/-- `parseInt(process.env.JWT_EXPIRES_IN)` (line 55); an absent env var
stringifies to `"undefined"`, which parses to `NaN`. -/
def parsedExpiry (o : Option String) : Option Int :=
  match o with
  | none => none
  | some s => jsParseInt s

/-- Lines 55-59: `parseInt(JWT_EXPIRES_IN) || 120`, then raise values
below 10 to 10.  `NaN` and `0` are falsy, so both fall back to 120. -/
def jwtExpiresIn (o : Option String) : Int :=
  let v : Int :=
    match parsedExpiry o with
    | none => 120
    | some n => if n = 0 then 120 else n
  if v < 10 then 10 else v

/-! ### Concrete fixtures for witnesses and counterexamples -/

/-- A concrete freshly generated private key (abstract bytes). -/
def goodPriv : Bytes := [9]

/-- A concrete freshly generated public key (abstract bytes). -/
def goodPub : Bytes := [10]

/-- A validator oracle that accepts exactly the generated pair and
rejects everything else with a `JsonWebTokenError`, as `jwt.verify`
throws for a mismatched or malformed pair. -/
def cexValidate : Bytes → Bytes → Option JsError := fun a b =>
  if a = goodPriv ∧ b = goodPub then none
  else some ⟨"JsonWebTokenError", none, "invalid signature", none⟩

/-- A validator oracle under which every pair passes the round trip. -/
def okValidate : Bytes → Bytes → Option JsError := fun _ _ => none

/-- A keypair stored at the default paths. -/
def fsValidPair : FS :=
  [("./private.key", .file [1] "600"), ("./public.key", .file [2] "644")]

/-- A default-path state with one backup already taken. -/
def fsBackup : FS :=
  [("./public.key", .file [2] "644"), ("./public.backup.1.key", .file [3] "644")]

/-- An empty (zero-byte) file at the default private-key path and
nothing else. -/
def fsEmptyPriv : FS := [("./private.key", .file [] "644")]

/-- A default private-key path that exists but cannot be read
(e.g. permission denied). -/
def fsUnreadablePriv : FS :=
  [("./private.key", .unreadable "Error" (some "EACCES") "permission denied")]

/-- Only the default public-key file exists. -/
def fsLonePub : FS := [("./public.key", .file [2] "644")]

/-- An explicitly configured key path holding a key, next to a default
public key. -/
def fsExplicit : FS :=
  [("/k.pem", .file [1] "600"), ("./public.key", .file [2] "644")]

/-- An explicitly configured key path that exists but fails to read
with an error that is neither ENOENT nor a JsonWebTokenError. -/
def fsUnknownExplicit : FS := [("/k.pem", .unreadable "FakeError" none "boom")]

/-! ### Helper lemmas -/

theorem lookupFS_setFS (fs : FS) (p : String) (e : Entry) (q : String) :
    lookupFS (setFS fs p e) q = if q = p then e else lookupFS fs q := rfl

theorem natDigitCharsAux_congr :
    ∀ f1 f2 n : Nat, n < f1 → n < f2 →
      natDigitCharsAux f1 n = natDigitCharsAux f2 n := by
  intro f1
  induction f1 with
  | zero => intro f2 n h1 _; omega
  | succ f ih =>
    intro f2 n h1 h2
    cases f2 with
    | zero => omega
    | succ g =>
      simp only [natDigitCharsAux]
      by_cases h : n < 10
      · simp [h]
      · simp only [if_neg h]
        have hdiv : n / 10 < n := Nat.div_lt_self (by omega) (by omega)
        rw [ih g (n / 10) (by omega) (by omega)]

theorem ndc_eq (n : Nat) :
    natDigitCharsAux (n + 1) n =
      if n < 10 then [Nat.digitChar n]
      else natDigitCharsAux (n / 10 + 1) (n / 10) ++ [Nat.digitChar (n % 10)] := by
  conv_lhs => rw [natDigitCharsAux]
  by_cases h : n < 10
  · rw [if_pos h, if_pos h]
  · have hdiv : n / 10 < n := Nat.div_lt_self (by omega) (by omega)
    rw [if_neg h, if_neg h,
      natDigitCharsAux_congr n (n / 10 + 1) (n / 10) (by omega) (by omega)]

theorem ndc_ne_nil (n : Nat) : natDigitCharsAux (n + 1) n ≠ [] := by
  rw [ndc_eq]
  split <;> simp

theorem digitChar_inj10 : ∀ a : Nat, a < 10 → ∀ b : Nat, b < 10 →
    Nat.digitChar a = Nat.digitChar b → a = b := by decide

theorem ndc_inj : ∀ m n : Nat,
    natDigitCharsAux (m + 1) m = natDigitCharsAux (n + 1) n → m = n := by
  intro m
  induction m using Nat.strong_induction_on with
  | _ m ih =>
    intro n h
    rw [ndc_eq m, ndc_eq n] at h
    by_cases hm : m < 10 <;> by_cases hn : n < 10
    · rw [if_pos hm, if_pos hn] at h
      exact digitChar_inj10 m hm n hn (List.cons.inj h).1
    · exfalso
      rw [if_pos hm, if_neg hn] at h
      have hlen := congrArg List.length h
      simp only [List.length_cons, List.length_nil, List.length_append] at hlen
      have : natDigitCharsAux (n / 10 + 1) (n / 10) = [] :=
        List.length_eq_zero.mp (by omega)
      exact ndc_ne_nil _ this
    · exfalso
      rw [if_neg hm, if_pos hn] at h
      have hlen := congrArg List.length h
      simp only [List.length_cons, List.length_nil, List.length_append] at hlen
      have : natDigitCharsAux (m / 10 + 1) (m / 10) = [] :=
        List.length_eq_zero.mp (by omega)
      exact ndc_ne_nil _ this
    · rw [if_neg hm, if_neg hn] at h
      obtain ⟨h1, h2⟩ := List.append_inj' h (by simp)
      have e1 : m / 10 = n / 10 :=
        ih (m / 10) (Nat.div_lt_self (by omega) (by omega)) (n / 10) h1
      have e2 : m % 10 = n % 10 :=
        digitChar_inj10 _ (Nat.mod_lt _ (by omega)) _ (Nat.mod_lt _ (by omega))
          (List.cons.inj h2).1
      omega

theorem natToString_inj (m n : Nat) (h : natToString m = natToString n) : m = n :=
  ndc_inj m n (congrArg String.data h)

theorem candName_inj (base : String) (i j : Nat)
    (h : candName base i = candName base j) : i = j := by
  have hd := congrArg String.data h
  simp only [candName, String.data_append, List.append_assoc] at hd
  have h1 := List.append_cancel_left hd
  have h2 := List.append_cancel_right h1
  by_cases hi : i = 0 <;> by_cases hj : j = 0
  · rw [hi, hj]
  · exfalso
    simp only [if_pos hi, if_neg hj, String.data_append] at h2
    have h2' : (".backup." : String).data ++ (natToString j).data = ("" : String).data :=
      h2.symm
    rw [show ("" : String).data = [] from rfl] at h2'
    exact absurd (List.append_eq_nil.mp h2').1 (by decide)
  · exfalso
    simp only [if_neg hi, if_pos hj, String.data_append] at h2
    have h2' : (".backup." : String).data ++ (natToString i).data = ("" : String).data :=
      h2
    rw [show ("" : String).data = [] from rfl] at h2'
    exact absurd (List.append_eq_nil.mp h2').1 (by decide)
  · simp only [if_neg hi, if_neg hj, String.data_append] at h2
    exact natToString_inj i j (String.ext (List.append_cancel_left h2))

theorem exi_mem (fs : FS) (p : String) (h : exi fs p = true) :
    p ∈ fs.map Prod.fst := by
  induction fs with
  | nil => simp [exi, lookupFS] at h
  | cons hd tl ih =>
    obtain ⟨q, e⟩ := hd
    by_cases hpq : p = q
    · simp [hpq]
    · have h' : exi tl p = true := by
        simpa [exi, lookupFS, hpq] using h
      simp [ih h']

theorem exists_free (fs : FS) (base : String) :
    ∃ j, j ≤ fs.length ∧ exi fs (candName base j) = false := by
  by_contra hcon
  push_neg at hcon
  have hall : ∀ j : Fin (fs.length + 1), candName base j.val ∈ fs.map Prod.fst := by
    intro j
    apply exi_mem
    have hne := hcon j.val (by omega)
    cases hb : exi fs (candName base j.val) with
    | false => exact absurd hb hne
    | true => rfl
  have hinj : Function.Injective (fun j : Fin (fs.length + 1) => candName base j.val) := by
    intro a b hab
    exact Fin.ext (candName_inj base a.val b.val hab)
  have hsub : (Finset.univ.image (fun j : Fin (fs.length + 1) => candName base j.val))
      ⊆ (fs.map Prod.fst).toFinset := by
    intro x hx
    rcases Finset.mem_image.mp hx with ⟨j, _, rfl⟩
    exact List.mem_toFinset.mpr (hall j)
  have hcard := Finset.card_le_card hsub
  rw [Finset.card_image_of_injective _ hinj, Finset.card_univ, Fintype.card_fin] at hcard
  have hle := List.toFinset_card_le (fs.map Prod.fst)
  simp only [List.length_map] at hle
  omega

theorem firstFreeAux_spec (fs : FS) (base : String) :
    ∀ fuel i j, i ≤ j → j < i + fuel → exi fs (candName base j) = false →
      exi fs (candName base (firstFreeAux fs base fuel i)) = false
      ∧ i ≤ firstFreeAux fs base fuel i
      ∧ ∀ k, i ≤ k → k < firstFreeAux fs base fuel i →
          exi fs (candName base k) = true := by
  intro fuel
  induction fuel with
  | zero => intro i j h1 h2 _; omega
  | succ f ih =>
    intro i j h1 h2 h3
    simp only [firstFreeAux]
    by_cases hexi : exi fs (candName base i) = true
    · rw [if_pos hexi]
      have hij : i ≠ j := by
        intro e
        rw [e, h3] at hexi
        exact Bool.noConfusion hexi
      obtain ⟨a, b, c⟩ := ih (i + 1) j (by omega) (by omega) h3
      refine ⟨a, by omega, ?_⟩
      intro k hk1 hk2
      by_cases hki : k = i
      · rw [hki]; exact hexi
      · exact c k (by omega) hk2
    · rw [if_neg hexi]
      have hfalse : exi fs (candName base i) = false := by
        cases hb : exi fs (candName base i) with
        | false => rfl
        | true => exact absurd hb hexi
      exact ⟨hfalse, Nat.le_refl i, by intro k hk1 hk2; omega⟩

theorem firstFree_spec (fs : FS) (base : String) :
    exi fs (candName base (firstFree fs base)) = false
    ∧ ∀ k, k < firstFree fs base → exi fs (candName base k) = true := by
  obtain ⟨j, hj1, hj2⟩ := exists_free fs base
  obtain ⟨a, _, c⟩ := firstFreeAux_spec fs base (fs.length + 1) 0 j (by omega) (by omega) hj2
  exact ⟨a, fun k hk => c k (by omega) hk⟩

theorem firstFree_eq_zero (fs : FS) (base : String)
    (h : exi fs (candName base 0) = false) : firstFree fs base = 0 := by
  simp only [firstFree, firstFreeAux, h]
  simp

theorem firstFree_pos (fs : FS) (base : String)
    (h : exi fs (candName base 0) = true) : 0 < firstFree fs base := by
  rcases Nat.eq_zero_or_pos (firstFree fs base) with h0 | hpos
  · exfalso
    have hf := (firstFree_spec fs base).1
    rw [h0] at hf
    exact Bool.noConfusion (h.symm.trans hf)
  · exact hpos

theorem truthyStr_false (o : Option String) (h : truthyStr o = false) (d : String) :
    orDefault o d = d := by
  cases o with
  | none => rfl
  | some s =>
    simp only [truthyStr, Bool.not_eq_false', decide_eq_true_eq] at h
    simp [orDefault, h]

theorem lookupFS_writeFS_self (fs : FS) (p : String) (c : Bytes) :
    lookupFS (writeFS fs p c) p = .file c (modeAfter (lookupFS fs p)) := by
  cases h : lookupFS fs p <;> simp [writeFS, modeAfter, h, lookupFS_setFS]

theorem lookupFS_writeFS_other (fs : FS) (p : String) (c : Bytes) (q : String)
    (h : q ≠ p) : lookupFS (writeFS fs p c) q = lookupFS fs q := by
  cases h0 : lookupFS fs p <;> simp [writeFS, h0, lookupFS_setFS, h]

theorem lookupFS_chmodFS_self {fs : FS} {p : String} (md : String) {c : Bytes}
    {m : String} (h : lookupFS fs p = .file c m) :
    lookupFS (chmodFS fs p md) p = .file c md := by
  simp [chmodFS, h, lookupFS_setFS]

theorem lookupFS_chmodFS_other (fs : FS) (p md q : String) (h : q ≠ p) :
    lookupFS (chmodFS fs p md) q = lookupFS fs q := by
  cases h0 : lookupFS fs p <;> simp [chmodFS, h0, lookupFS_setFS, h]

theorem persist_spec (fs : FS) (gp gq : Bytes) :
    lookupFS (chmodFS (writeFS (chmodFS (writeFS fs "./private.key" gp)
        "./private.key" "600") "./public.key" gq) "./public.key" "644")
      "./private.key" = .file gp "600"
    ∧ lookupFS (chmodFS (writeFS (chmodFS (writeFS fs "./private.key" gp)
        "./private.key" "600") "./public.key" gq) "./public.key" "644")
      "./public.key" = .file gq "644" := by
  have h3 := lookupFS_writeFS_self fs "./private.key" gp
  have h4 := lookupFS_chmodFS_self "600" h3
  have h5 := (lookupFS_writeFS_other _ "./public.key" gq "./private.key"
    (by decide)).trans h4
  have h6 := (lookupFS_chmodFS_other _ "./public.key" "644" "./private.key"
    (by decide)).trans h5
  have h5' := lookupFS_writeFS_self
    (chmodFS (writeFS fs "./private.key" gp) "./private.key" "600") "./public.key" gq
  have h6' := lookupFS_chmodFS_self "644" h5'
  exact ⟨h6, h6'⟩

theorem regenerate_spec (gp gq : Bytes) (fs : FS) :
    (regenerate gp gq fs).1 = .regenerated gp gq
    ∧ lookupFS (regenerate gp gq fs).2.1 "./private.key" = .file gp "600"
    ∧ lookupFS (regenerate gp gq fs).2.1 "./public.key" = .file gq "644"
    ∧ FsOp.chmod "./private.key" "600" ∈ (regenerate gp gq fs).2.2
    ∧ FsOp.chmod "./public.key" "644" ∈ (regenerate gp gq fs).2.2 := by
  obtain ⟨hp, hq⟩ :=
    persist_spec (rotateOne (rotateOne fs "./private").1 "./public").1 gp gq
  refine ⟨rfl, ?_, ?_, ?_, ?_⟩
  · exact hp
  · exact hq
  · simp [regenerate, List.mem_append]
  · simp [regenerate, List.mem_append]

theorem resolve_eq_regenerate (cfg : Env) (validate : Bytes → Bytes → Option JsError)
    (gp gq : Bytes) (fs : FS)
    (hpriv : truthyStr cfg.jtwPrivateKeyPath = false)
    (hpub : truthyStr cfg.jtwPublicKeyPath = false)
    (hfail : ∀ c m, lookupFS fs (effPrivPath cfg) ≠ .file c m) :
    resolve cfg validate gp gq fs = regenerate gp gq fs := by
  cases h : lookupFS fs (effPrivPath cfg) with
  | absent => simp [resolve, readFile, h, handleCatch, hpriv, hpub]
  | file c m => exact absurd h (hfail c m)
  | unreadable a b c => simp [resolve, readFile, h, handleCatch, hpriv, hpub]

theorem resolve_not_regenerated_of_file (cfg : Env)
    (validate : Bytes → Bytes → Option JsError) (gp gq : Bytes) (fs : FS)
    (p : Bytes) (mp : String) (h : lookupFS fs (effPrivPath cfg) = .file p mp)
    (a b : Bytes) : (resolve cfg validate gp gq fs).1 ≠ .regenerated a b := by
  simp only [resolve, readFile, h]
  cases h2 : lookupFS fs (effPubPath cfg) with
  | absent => simp [handleCatch]
  | unreadable n c m => simp [handleCatch]
  | file q mq =>
    cases h3 : validate p q with
    | some e => simp [handleCatch, h3]
    | none => simp [h3]

theorem readFile_ok (fs : FS) (p : String) (c : Bytes)
    (h : readFile fs p = .ok c) : ∃ m, lookupFS fs p = .file c m := by
  cases hl : lookupFS fs p with
  | absent => simp [readFile, hl] at h
  | unreadable a b m => simp [readFile, hl] at h
  | file c0 m0 =>
    simp only [readFile, hl, Except.ok.injEq] at h
    subst h
    exact ⟨m0, rfl⟩

theorem resolve_error_first (cfg : Env) (validate : Bytes → Bytes → Option JsError)
    (gp gq : Bytes) (fs : FS) (e : JsError)
    (h : readFile fs (effPrivPath cfg) = .error e) :
    resolve cfg validate gp gq fs = handleCatch cfg gp gq fs e false false := by
  simp [resolve, h]

theorem resolve_regenerated_inv (cfg : Env)
    (validate : Bytes → Bytes → Option JsError) (gp gq : Bytes) (fs fs' : FS)
    (ops : List FsOp)
    (h : resolve cfg validate gp gq fs = (.regenerated gp gq, fs', ops)) :
    truthyStr cfg.jtwPrivateKeyPath = false
    ∧ truthyStr cfg.jtwPublicKeyPath = false
    ∧ (∀ content mode, lookupFS fs "./private.key" ≠ .file content mode)
    ∧ fs' = (regenerate gp gq fs).2.1 ∧ ops = (regenerate gp gq fs).2.2 := by
  cases hrf : readFile fs (effPrivPath cfg) with
  | ok p =>
    obtain ⟨mp, hl⟩ := readFile_ok _ _ _ hrf
    exact absurd (by rw [h])
      (resolve_not_regenerated_of_file cfg validate gp gq fs p mp hl gp gq)
  | error e =>
    have hres0 := resolve_error_first cfg validate gp gq fs e hrf
    by_cases hp : truthyStr cfg.jtwPrivateKeyPath = true
    · exfalso
      rw [hres0] at h
      simp [handleCatch, hp] at h
    · by_cases hq : truthyStr cfg.jtwPublicKeyPath = true
      · exfalso
        rw [hres0] at h
        simp [handleCatch, hq] at h
      · have hp' : truthyStr cfg.jtwPrivateKeyPath = false := by
          revert hp; cases truthyStr cfg.jtwPrivateKeyPath <;> simp
        have hq' : truthyStr cfg.jtwPublicKeyPath = false := by
          revert hq; cases truthyStr cfg.jtwPublicKeyPath <;> simp
        rw [hres0, show handleCatch cfg gp gq fs e false false = regenerate gp gq fs
          from by simp [handleCatch, hp', hq']] at h
        refine ⟨hp', hq', ?_, (congrArg (fun t => t.2.1) h).symm,
          (congrArg (fun t => t.2.2) h).symm⟩
        intro content mode hcm
        have e1 : effPrivPath cfg = "./private.key" := truthyStr_false _ hp' _
        rw [e1] at hrf
        simp [readFile, hcm] at hrf

theorem natToString_len_pos (i : Nat) : 0 < (natToString i).data.length :=
  List.length_pos.mpr (ndc_ne_nil i)

theorem candName_public_ne (i : Nat) (hi : i ≠ 0) :
    candName "./public" i ≠ "./private.key" ∧ candName "./public" i ≠ "./public.key" := by
  have hk := natToString_len_pos i
  have hdata : (candName "./public" i).data
      = ("./public" : String).data ++ ((".backup." : String).data
        ++ ((natToString i).data ++ (".key" : String).data)) := by
    simp [candName, if_neg hi, String.data_append, List.append_assoc]
  have l1 : ("./public" : String).data.length = 8 := rfl
  have l2 : (".backup." : String).data.length = 8 := rfl
  have l3 : (".key" : String).data.length = 4 := rfl
  have l4 : ("./private.key" : String).data.length = 13 := rfl
  have l5 : ("./public.key" : String).data.length = 12 := rfl
  constructor <;> intro h
  · have hlen := congrArg (fun s => s.data.length) h
    simp only [hdata, List.length_append, l1, l2, l3, l4] at hlen
    omega
  · have hlen := congrArg (fun s => s.data.length) h
    simp only [hdata, List.length_append, l1, l2, l3, l5] at hlen
    omega

/-! ### Claim theorems -/

/-- Claim C1 (corrected): with a validator-failing keypair at both
default paths and no explicit key path configured, `resolve` does NOT
back up and regenerate; because the read `Buffer`s are truthy, the
catch condition on line 97 fires and the run aborts fatally with the
keypair-validation diagnostic, touching nothing on disk. -/
theorem C1_invalid_default_pair_is_fatal (cfg : Env)
    (validate : Bytes → Bytes → Option JsError) (gp gq p q : Bytes)
    (mp mq : String) (fs : FS) (e : JsError)
    (hpriv : truthyStr cfg.jtwPrivateKeyPath = false)
    (hpub : truthyStr cfg.jtwPublicKeyPath = false)
    (h1 : lookupFS fs "./private.key" = .file p mp)
    (h2 : lookupFS fs "./public.key" = .file q mq)
    (h3 : validate p q = some e) (h4 : e.name = "JsonWebTokenError") :
    resolve cfg validate gp gq fs = (.fatal .invalidKeyPair, fs, []) := by
  have e1 : effPrivPath cfg = "./private.key" := truthyStr_false _ hpriv _
  have e2 : effPubPath cfg = "./public.key" := truthyStr_false _ hpub _
  have hclass : classify e = .invalidKeyPair := by
    simp [classify, h4]
  simp [resolve, e1, e2, readFile, h1, h2, h3, handleCatch, hclass]

/-- Claim C1, counterexample to the claim as stated: a concrete state
with a validator-failing pair at both default paths and no explicit
configuration, where a validator-passing replacement pair is available,
yet `resolve` exits fatally and performs no rename and no write. -/
theorem C1_counterexample :
    resolve ⟨none, none⟩ cexValidate goodPriv goodPub fsValidPair
      = (.fatal .invalidKeyPair, fsValidPair, [])
    ∧ cexValidate [1] [2]
        = some ⟨"JsonWebTokenError", none, "invalid signature", none⟩
    ∧ cexValidate goodPriv goodPub = none := by
  refine ⟨?_, ?_, ?_⟩ <;> rfl

/-- Claim C1, witness: the corrected theorem applied to the concrete
counterexample state. -/
theorem C1_witness :
    resolve ⟨none, none⟩ cexValidate goodPriv goodPub fsValidPair
      = (.fatal .invalidKeyPair, fsValidPair, []) :=
  C1_invalid_default_pair_is_fatal ⟨none, none⟩ cexValidate goodPriv goodPub
    [1] [2] "600" "644" fsValidPair
    ⟨"JsonWebTokenError", none, "invalid signature", none⟩
    rfl rfl rfl rfl rfl rfl

/-- Claim C2: the rotation scan computes the smallest index whose
candidate file does not exist, scanning upward from 0; a positive index
performs exactly the rename of candidate 0 to that candidate (whose
target therefore did not exist beforehand), index 0 performs no rename,
and afterwards the unsuffixed path is free. -/
theorem C2_backup_rotation_smallest_free (fs : FS) (base : String) :
    exi fs (candName base (firstFree fs base)) = false
    ∧ (∀ j, j < firstFree fs base → exi fs (candName base j) = true)
    ∧ (0 < firstFree fs base →
        rotateOne fs base =
          (renameFS fs (candName base 0) (candName base (firstFree fs base)),
           [FsOp.rename (candName base 0) (candName base (firstFree fs base))]))
    ∧ (firstFree fs base = 0 → rotateOne fs base = (fs, []))
    ∧ exi (rotateOne fs base).1 (candName base 0) = false := by
  obtain ⟨h1, h2⟩ := firstFree_spec fs base
  refine ⟨h1, h2, ?_, ?_, ?_⟩
  · intro h
    simp [rotateOne, if_pos h]
  · intro h
    simp [rotateOne, h]
  · by_cases h : 0 < firstFree fs base
    · have hrw : rotateOne fs base =
          (renameFS fs (candName base 0) (candName base (firstFree fs base)),
           [FsOp.rename (candName base 0) (candName base (firstFree fs base))]) := by
        simp [rotateOne, if_pos h]
      rw [hrw]
      simp [renameFS, exi, lookupFS_setFS]
    · have h0 : firstFree fs base = 0 := by omega
      have hrw : rotateOne fs base = (fs, []) := by simp [rotateOne, h0]
      rw [hrw]
      rw [h0] at h1
      exact h1

/-- Claim C2, witness: the rotation theorem evaluated on a state
holding `./public.key` and `./public.backup.1.key`, where the scan
stops at index 2. -/
theorem C2_witness :
    exi fsBackup (candName "./public" (firstFree fsBackup "./public")) = false
    ∧ rotateOne fsBackup "./public" =
        (renameFS fsBackup (candName "./public" 0)
          (candName "./public" (firstFree fsBackup "./public")),
         [FsOp.rename (candName "./public" 0)
           (candName "./public" (firstFree fsBackup "./public"))])
    ∧ exi fsBackup (candName "./public" 1) = true :=
  ⟨(C2_backup_rotation_smallest_free fsBackup "./public").1,
   (C2_backup_rotation_smallest_free fsBackup "./public").2.2.1 (by decide),
   (C2_backup_rotation_smallest_free fsBackup "./public").2.1 1 (by decide)⟩

/-- Claim C3 (corrected): an unknown (neither-ENOENT-nor-validation)
load error is fatal with the unknown-error diagnostic whenever an
explicit key path is configured (first conjunct) or key bytes had
already been read before the failure (second conjunct) — but not "for
every configuration": the counterexample shows the remaining case
regenerating. -/
theorem C3_unknown_error_fatal_when_configured_or_read (cfg : Env)
    (validate : Bytes → Bytes → Option JsError) (gp gq : Bytes) (fs : FS)
    (n : String) (c : Option String) (msg : String)
    (hshape : ¬(n = "Error" ∧ c = some "ENOENT"))
    (hjwt : n ≠ "JsonWebTokenError") :
    ((truthyStr cfg.jtwPrivateKeyPath = true
        ∨ truthyStr cfg.jtwPublicKeyPath = true) →
      lookupFS fs (effPrivPath cfg) = .unreadable n c msg →
      resolve cfg validate gp gq fs = (.fatal (.unknown n c msg), fs, []))
    ∧ (∀ p mp, lookupFS fs (effPrivPath cfg) = .file p mp →
        lookupFS fs (effPubPath cfg) = .unreadable n c msg →
        resolve cfg validate gp gq fs = (.fatal (.unknown n c msg), fs, [])) := by
  constructor
  · intro hexp hdur
    rcases hexp with h | h <;>
      simp [resolve, readFile, hdur, handleCatch, h, classify, hshape, hjwt]
  · intro p mp h1 h2
    simp [resolve, readFile, h1, h2, handleCatch, classify, hshape, hjwt]

/-- Claim C3, counterexample to the claim as stated: with no explicit
path configured and no bytes read, an unknown read error (EACCES) on
the default private key does not exit; the run regenerates. -/
theorem C3_counterexample :
    (resolve ⟨none, none⟩ okValidate goodPriv goodPub fsUnreadablePriv).1
      = .regenerated goodPriv goodPub := by
  rfl

/-- Claim C3, witness: the corrected theorem applied to an explicitly
configured path whose read fails with an unknown error. -/
theorem C3_witness :
    resolve ⟨some "/k.pem", none⟩ okValidate goodPriv goodPub fsUnknownExplicit
      = (.fatal (.unknown "FakeError" none "boom"), fsUnknownExplicit, []) :=
  (C3_unknown_error_fatal_when_configured_or_read ⟨some "/k.pem", none⟩
    okValidate goodPriv goodPub fsUnknownExplicit "FakeError" none "boom"
    (by decide) (by decide)).1 (Or.inl rfl) rfl

/-- Claim C5: a validator-passing keypair at the default paths with no
explicit configuration is returned byte-identically, with no write,
rename, or permission change (empty operation trace, filesystem
unchanged). -/
theorem C5_valid_pair_loaded_no_mutation (cfg : Env)
    (validate : Bytes → Bytes → Option JsError) (gp gq p q : Bytes)
    (mp mq : String) (fs : FS)
    (hpriv : truthyStr cfg.jtwPrivateKeyPath = false)
    (hpub : truthyStr cfg.jtwPublicKeyPath = false)
    (h1 : lookupFS fs "./private.key" = .file p mp)
    (h2 : lookupFS fs "./public.key" = .file q mq)
    (h3 : validate p q = none) :
    resolve cfg validate gp gq fs = (.loaded p q, fs, []) := by
  have e1 : effPrivPath cfg = "./private.key" := truthyStr_false _ hpriv _
  have e2 : effPubPath cfg = "./public.key" := truthyStr_false _ hpub _
  simp [resolve, e1, e2, readFile, h1, h2, h3]

/-- Claim C5, witness: the theorem applied to a concrete stored pair
accepted by the validator. -/
theorem C5_witness :
    resolve ⟨none, none⟩ okValidate goodPriv goodPub fsValidPair
      = (.loaded [1] [2], fsValidPair, []) :=
  C5_valid_pair_loaded_no_mutation ⟨none, none⟩ okValidate goodPriv goodPub
    [1] [2] "600" "644" fsValidPair rfl rfl rfl rfl rfl

/-- Claim C6: with an explicit key path configured and a load failing
because a path does not exist, `resolve` exits fatally with the
missing-file diagnostic naming that path, leaving the filesystem
untouched and performing no generation. -/
theorem C6_explicit_missing_fatal (cfg : Env)
    (validate : Bytes → Bytes → Option JsError) (gp gq : Bytes) (fs : FS)
    (hexp : truthyStr cfg.jtwPrivateKeyPath = true
      ∨ truthyStr cfg.jtwPublicKeyPath = true)
    (hmiss : lookupFS fs (effPrivPath cfg) = .absent
      ∨ ((∃ c m, lookupFS fs (effPrivPath cfg) = .file c m)
         ∧ lookupFS fs (effPubPath cfg) = .absent)) :
    ∃ missing, (missing = effPrivPath cfg ∨ missing = effPubPath cfg)
      ∧ lookupFS fs missing = .absent
      ∧ resolve cfg validate gp gq fs
          = (.fatal (.missingFile (some missing)), fs, []) := by
  rcases hmiss with habs | ⟨⟨c, m, hfile⟩, habs⟩
  · refine ⟨effPrivPath cfg, Or.inl rfl, habs, ?_⟩
    rcases hexp with h | h <;>
      simp [resolve, readFile, habs, handleCatch, h, classify]
  · refine ⟨effPubPath cfg, Or.inr rfl, habs, ?_⟩
    rcases hexp with h | h <;>
      simp [resolve, readFile, hfile, habs, handleCatch, h, classify]

/-- Claim C6, witness: an explicitly configured private-key path that
does not exist on an otherwise empty filesystem. -/
theorem C6_witness :
    ∃ missing, (missing = effPrivPath ⟨some "/k.pem", none⟩
        ∨ missing = effPubPath ⟨some "/k.pem", none⟩)
      ∧ lookupFS ([] : FS) missing = .absent
      ∧ resolve ⟨some "/k.pem", none⟩ okValidate goodPriv goodPub ([] : FS)
          = (.fatal (.missingFile (some missing)), ([] : FS), []) :=
  C6_explicit_missing_fatal ⟨some "/k.pem", none⟩ okValidate goodPriv goodPub
    ([] : FS) (Or.inl rfl) (Or.inl rfl)

/-- Claim C7: with an explicit key path configured and a loaded pair
failing the sign/verify round trip with a `JsonWebTokenError`,
`resolve` exits fatally with the keypair-validation diagnostic, which
is a different constructor than every missing-file diagnostic. -/
theorem C7_explicit_invalid_fatal (cfg : Env)
    (validate : Bytes → Bytes → Option JsError) (gp gq p q : Bytes)
    (mp mq : String) (fs : FS) (e : JsError)
    (_hexp : truthyStr cfg.jtwPrivateKeyPath = true
      ∨ truthyStr cfg.jtwPublicKeyPath = true)
    (h1 : lookupFS fs (effPrivPath cfg) = .file p mp)
    (h2 : lookupFS fs (effPubPath cfg) = .file q mq)
    (h3 : validate p q = some e) (h4 : e.name = "JsonWebTokenError") :
    resolve cfg validate gp gq fs = (.fatal .invalidKeyPair, fs, [])
    ∧ ∀ path, Diag.invalidKeyPair ≠ Diag.missingFile path := by
  constructor
  · have hclass : classify e = .invalidKeyPair := by
      simp [classify, h4]
    simp [resolve, readFile, h1, h2, h3, handleCatch, hclass]
  · intro path hne
    exact Diag.noConfusion hne

/-- Claim C7, witness: an explicitly configured key path holding a
pair the validator rejects. -/
theorem C7_witness :
    resolve ⟨some "/k.pem", none⟩ cexValidate goodPriv goodPub fsExplicit
      = (.fatal .invalidKeyPair, fsExplicit, [])
    ∧ ∀ path, Diag.invalidKeyPair ≠ Diag.missingFile path :=
  C7_explicit_invalid_fatal ⟨some "/k.pem", none⟩ cexValidate goodPriv goodPub
    [1] [2] "600" "644" fsExplicit
    ⟨"JsonWebTokenError", none, "invalid signature", none⟩
    (Or.inl rfl) rfl rfl rfl rfl

/-- Claim C4 (corrected): the self-healing regeneration path is taken
exactly when no explicit key path is configured and the very first
read — of the default private-key file — fails (the file is absent or
unreadable, i.e. not a readable file).  An empty file at the default
private path reads successfully into a truthy `Buffer` and therefore
aborts fatally instead of self-healing. -/
theorem C4_selfheal_iff_first_read_fails (cfg : Env)
    (validate : Bytes → Bytes → Option JsError) (gp gq : Bytes) (fs : FS) :
    (∃ fs' ops, resolve cfg validate gp gq fs = (.regenerated gp gq, fs', ops))
    ↔ (truthyStr cfg.jtwPrivateKeyPath = false
       ∧ truthyStr cfg.jtwPublicKeyPath = false
       ∧ ∀ content mode, lookupFS fs "./private.key" ≠ .file content mode) := by
  constructor
  · rintro ⟨fs', ops, h⟩
    obtain ⟨hp, hq, hfile, _, _⟩ :=
      resolve_regenerated_inv cfg validate gp gq fs fs' ops h
    exact ⟨hp, hq, hfile⟩
  · rintro ⟨hp, hq, hfile⟩
    have e1 : effPrivPath cfg = "./private.key" := truthyStr_false _ hp _
    have hfail : ∀ c m, lookupFS fs (effPrivPath cfg) ≠ .file c m := by
      rw [e1]; exact hfile
    refine ⟨(regenerate gp gq fs).2.1, (regenerate gp gq fs).2.2, ?_⟩
    rw [resolve_eq_regenerate cfg validate gp gq fs hp hq hfail]
    rfl

/-- Claim C4, counterexample to the claim as stated: an empty
(zero-byte) file at the default private-key path with no explicit
configuration does not self-heal; the empty read leaves a truthy
`Buffer`, so the subsequent failure is fatal (here: the missing public
key), even though the validator would accept any pair. -/
theorem C4_counterexample :
    resolve ⟨none, none⟩ okValidate goodPriv goodPub fsEmptyPriv
      = (.fatal (.missingFile (some "./public.key")), fsEmptyPriv, []) := by
  rfl

/-- Claim C4, witness: the corrected equivalence instantiated on the
empty filesystem, where the first read fails and regeneration runs. -/
theorem C4_witness :
    ∃ fs' ops, resolve ⟨none, none⟩ okValidate goodPriv goodPub ([] : FS)
      = (.regenerated goodPriv goodPub, fs', ops) :=
  (C4_selfheal_iff_first_read_fails ⟨none, none⟩ okValidate goodPriv goodPub
    ([] : FS)).mpr ⟨rfl, rfl, by intro content mode h; simp [lookupFS] at h⟩

/-- Claim C8: whenever `resolve` persists a newly generated keypair,
the final state holds the private key file with mode 600 and the
public key file with mode 644, and the operation trace contains the
two corresponding chmods. -/
theorem C8_persist_permissions (cfg : Env)
    (validate : Bytes → Bytes → Option JsError) (gp gq : Bytes) (fs fs' : FS)
    (ops : List FsOp)
    (h : resolve cfg validate gp gq fs = (.regenerated gp gq, fs', ops)) :
    lookupFS fs' "./private.key" = .file gp "600"
    ∧ lookupFS fs' "./public.key" = .file gq "644"
    ∧ FsOp.chmod "./private.key" "600" ∈ ops
    ∧ FsOp.chmod "./public.key" "644" ∈ ops := by
  obtain ⟨_, _, _, hfs', hops⟩ :=
    resolve_regenerated_inv cfg validate gp gq fs fs' ops h
  obtain ⟨_, hpriv, hpub, hc1, hc2⟩ := regenerate_spec gp gq fs
  rw [hfs', hops]
  exact ⟨hpriv, hpub, hc1, hc2⟩

/-- Claim C8, witness: the permission theorem applied to the
regeneration run on the empty filesystem. -/
theorem C8_witness :
    lookupFS (resolve ⟨none, none⟩ okValidate goodPriv goodPub ([] : FS)).2.1
        "./private.key" = .file goodPriv "600"
    ∧ lookupFS (resolve ⟨none, none⟩ okValidate goodPriv goodPub ([] : FS)).2.1
        "./public.key" = .file goodPub "644"
    ∧ FsOp.chmod "./private.key" "600"
        ∈ (resolve ⟨none, none⟩ okValidate goodPriv goodPub ([] : FS)).2.2
    ∧ FsOp.chmod "./public.key" "644"
        ∈ (resolve ⟨none, none⟩ okValidate goodPriv goodPub ([] : FS)).2.2 :=
  C8_persist_permissions ⟨none, none⟩ okValidate goodPriv goodPub ([] : FS)
    (resolve ⟨none, none⟩ okValidate goodPriv goodPub ([] : FS)).2.1
    (resolve ⟨none, none⟩ okValidate goodPriv goodPub ([] : FS)).2.2 rfl

/-- Claim C9 (corrected): the configured token expiry is always an
integer at least 10; a parsable nonzero value below 10 is raised to
10, while zero — like an unparsable or absent value — is falsy in
JavaScript and is replaced by the default 120 (not raised to 10), and
a parsable value of at least 10 is kept. -/
theorem C9_expiry_clamp (o : Option String) :
    10 ≤ jwtExpiresIn o
    ∧ (parsedExpiry o = none → jwtExpiresIn o = 120)
    ∧ (parsedExpiry o = some 0 → jwtExpiresIn o = 120)
    ∧ (∀ n : Int, parsedExpiry o = some n → n ≠ 0 → n < 10 →
        jwtExpiresIn o = 10)
    ∧ (∀ n : Int, parsedExpiry o = some n → 10 ≤ n → jwtExpiresIn o = n) := by
  cases hp : parsedExpiry o with
  | none =>
    have hval : jwtExpiresIn o = 120 := by simp [jwtExpiresIn, hp]
    refine ⟨by rw [hval]; omega, fun _ => hval, ?_, ?_, ?_⟩
    · intro h; exact Option.noConfusion h
    · intro m hm _ _; exact Option.noConfusion hm
    · intro m hm _; exact Option.noConfusion hm
  | some n =>
    by_cases hz : n = 0
    · have hval : jwtExpiresIn o = 120 := by
        subst hz; simp [jwtExpiresIn, hp]
      refine ⟨by rw [hval]; omega, ?_, fun _ => hval, ?_, ?_⟩
      · intro h; exact Option.noConfusion h
      · intro m hm hne _
        have h1 : n = m := Option.some.inj hm
        exact absurd (by omega : m = 0) hne
      · intro m hm h10
        have h1 : n = m := Option.some.inj hm
        rw [hval]; omega
    · have hval : jwtExpiresIn o = if n < 10 then 10 else n := by
        simp [jwtExpiresIn, hp, hz]
      by_cases hlt : n < 10
      · have hval10 : jwtExpiresIn o = 10 := by rw [hval, if_pos hlt]
        refine ⟨by rw [hval10], ?_, ?_, fun m hm _ _ => hval10, ?_⟩
        · intro h; exact Option.noConfusion h
        · intro h; exact absurd (Option.some.inj h) hz
        · intro m hm h10
          have h1 : n = m := Option.some.inj hm
          rw [hval10]; omega
      · have hvaln : jwtExpiresIn o = n := by rw [hval, if_neg hlt]
        refine ⟨by rw [hvaln]; omega, ?_, ?_, ?_, ?_⟩
        · intro h; exact Option.noConfusion h
        · intro h; exact absurd (Option.some.inj h) hz
        · intro m hm hne hlt10
          have h1 : n = m := Option.some.inj hm
          rw [hvaln]; omega
        · intro m hm _
          have h1 : n = m := Option.some.inj hm
          rw [hvaln]; omega

/-- Claim C9, counterexample to the claim as stated: the environment
value `"0"` parses to 0, which is below 10, yet the result is the
default 120, not 10 — `0` is falsy, so `parseInt(...) || 120` replaces
it before the minimum check runs. -/
theorem C9_counterexample :
    parsedExpiry (some "0") = some 0
    ∧ jwtExpiresIn (some "0") = 120
    ∧ jwtExpiresIn (some "0") ≠ 10 := by
  refine ⟨by rfl, by rfl, by decide⟩

/-- Claim C9, witness: a parsable nonzero value below the minimum is
raised to 10. -/
theorem C9_witness : jwtExpiresIn (some "3") = 10 :=
  (C9_expiry_clamp (some "3")).2.2.2.1 3 rfl (by decide) (by decide)

/-- Claim C10: with no explicit paths, the private key file absent and
the public key file present, the private read fails first, so the run
regenerates silently; the lone `./public.key` is preserved by being
renamed to the lowest unused backup index (the only rename in the
trace — the private side performs none), and the fresh pair is then
written to the defaults. -/
theorem C10_lone_public_backed_up (cfg : Env)
    (validate : Bytes → Bytes → Option JsError) (gp gq : Bytes) (fs : FS)
    (hp : truthyStr cfg.jtwPrivateKeyPath = false)
    (hq : truthyStr cfg.jtwPublicKeyPath = false)
    (habs : lookupFS fs "./private.key" = .absent)
    (hpub : exi fs "./public.key" = true) :
    0 < firstFree fs "./public"
    ∧ exi fs (candName "./public" (firstFree fs "./public")) = false
    ∧ (∀ j, j < firstFree fs "./public" →
        exi fs (candName "./public" j) = true)
    ∧ (resolve cfg validate gp gq fs).1 = .regenerated gp gq
    ∧ (resolve cfg validate gp gq fs).2.2
        = [FsOp.rename "./public.key"
             (candName "./public" (firstFree fs "./public")),
           FsOp.write "./private.key", FsOp.chmod "./private.key" "600",
           FsOp.write "./public.key", FsOp.chmod "./public.key" "644"]
    ∧ lookupFS (resolve cfg validate gp gq fs).2.1
        (candName "./public" (firstFree fs "./public"))
        = lookupFS fs "./public.key"
    ∧ lookupFS (resolve cfg validate gp gq fs).2.1 "./private.key"
        = .file gp "600"
    ∧ lookupFS (resolve cfg validate gp gq fs).2.1 "./public.key"
        = .file gq "644" := by
  have hc0pub : candName "./public" 0 = "./public.key" := rfl
  have hc0priv : candName "./private" 0 = "./private.key" := rfl
  have hpos : 0 < firstFree fs "./public" :=
    firstFree_pos fs "./public" (by rw [hc0pub]; exact hpub)
  obtain ⟨hfree, hmin⟩ := firstFree_spec fs "./public"
  have hprivfree : firstFree fs "./private" = 0 :=
    firstFree_eq_zero fs "./private" (by rw [hc0priv]; simp [exi, habs])
  have hrot1 : rotateOne fs "./private" = (fs, []) := by
    simp [rotateOne, hprivfree]
  have hrot2 : rotateOne fs "./public" =
      (renameFS fs "./public.key"
        (candName "./public" (firstFree fs "./public")),
       [FsOp.rename "./public.key"
         (candName "./public" (firstFree fs "./public"))]) := by
    rw [show ("./public.key" : String) = candName "./public" 0 from rfl]
    simp [rotateOne, if_pos hpos]
  have hres : resolve cfg validate gp gq fs = regenerate gp gq fs :=
    resolve_eq_regenerate cfg validate gp gq fs hp hq (by
      have e1 : effPrivPath cfg = "./private.key" := truthyStr_false _ hp _
      rw [e1]
      intro c m hcm
      rw [habs] at hcm
      exact Entry.noConfusion hcm)
  obtain ⟨houtcome, hkeypriv, hkeypub, _, _⟩ := regenerate_spec gp gq fs
  have hne0 : firstFree fs "./public" ≠ 0 := by omega
  obtain ⟨hne1, hne2⟩ := candName_public_ne (firstFree fs "./public") hne0
  have hfs2 : (rotateOne (rotateOne fs "./private").1 "./public").1
      = renameFS fs "./public.key"
          (candName "./public" (firstFree fs "./public")) := by
    rw [hrot1]
    rw [show ((fs, ([] : List FsOp)).1) = fs from rfl, hrot2]
  have hpres : lookupFS (regenerate gp gq fs).2.1
      (candName "./public" (firstFree fs "./public"))
      = lookupFS fs "./public.key" := by
    show lookupFS (chmodFS (writeFS (chmodFS (writeFS
        (rotateOne (rotateOne fs "./private").1 "./public").1
        "./private.key" gp) "./private.key" "600") "./public.key" gq)
        "./public.key" "644")
        (candName "./public" (firstFree fs "./public"))
      = lookupFS fs "./public.key"
    rw [lookupFS_chmodFS_other _ _ _ _ hne2,
      lookupFS_writeFS_other _ _ _ _ hne2,
      lookupFS_chmodFS_other _ _ _ _ hne1,
      lookupFS_writeFS_other _ _ _ _ hne1,
      hfs2, renameFS, lookupFS_setFS, if_neg hne2, lookupFS_setFS, if_pos rfl]
  have hops : (regenerate gp gq fs).2.2
      = [FsOp.rename "./public.key"
           (candName "./public" (firstFree fs "./public")),
         FsOp.write "./private.key", FsOp.chmod "./private.key" "600",
         FsOp.write "./public.key", FsOp.chmod "./public.key" "644"] := by
    show (rotateOne fs "./private").2
        ++ (rotateOne (rotateOne fs "./private").1 "./public").2
        ++ [FsOp.write "./private.key", FsOp.chmod "./private.key" "600",
            FsOp.write "./public.key", FsOp.chmod "./public.key" "644"] = _
    rw [hrot1]
    rw [show ((fs, ([] : List FsOp)).1) = fs from rfl, hrot2]
    simp
  refine ⟨hpos, hfree, hmin, ?_, ?_, ?_, ?_, ?_⟩
  · rw [hres, houtcome]
  · rw [hres, hops]
  · rw [hres]; exact hpres
  · rw [hres]; exact hkeypriv
  · rw [hres]; exact hkeypub

/-- Claim C10, witness: the theorem applied to the state holding only
`./public.key`, which is renamed to `./public.backup.1.key`. -/
theorem C10_witness :
    0 < firstFree fsLonePub "./public"
    ∧ exi fsLonePub (candName "./public" (firstFree fsLonePub "./public")) = false
    ∧ (∀ j, j < firstFree fsLonePub "./public" →
        exi fsLonePub (candName "./public" j) = true)
    ∧ (resolve ⟨none, none⟩ okValidate goodPriv goodPub fsLonePub).1
        = .regenerated goodPriv goodPub
    ∧ (resolve ⟨none, none⟩ okValidate goodPriv goodPub fsLonePub).2.2
        = [FsOp.rename "./public.key"
             (candName "./public" (firstFree fsLonePub "./public")),
           FsOp.write "./private.key", FsOp.chmod "./private.key" "600",
           FsOp.write "./public.key", FsOp.chmod "./public.key" "644"]
    ∧ lookupFS (resolve ⟨none, none⟩ okValidate goodPriv goodPub fsLonePub).2.1
        (candName "./public" (firstFree fsLonePub "./public"))
        = lookupFS fsLonePub "./public.key"
    ∧ lookupFS (resolve ⟨none, none⟩ okValidate goodPriv goodPub fsLonePub).2.1
        "./private.key" = .file goodPriv "600"
    ∧ lookupFS (resolve ⟨none, none⟩ okValidate goodPriv goodPub fsLonePub).2.1
        "./public.key" = .file goodPub "644" :=
  C10_lone_public_backed_up ⟨none, none⟩ okValidate goodPriv goodPub fsLonePub
    rfl rfl rfl rfl

end LoginServer
